import Mathlib

/-!
Shallow embedding of zerver/views/user_topics.py: per-user, per-topic
visibility-policy commands (mute_topic, unmute_topic, update_muted_topic,
update_user_topic, get_stream_topic_counts) over an explicit store state.
Collaborators that live outside the provided source (stream resolvers, the
exactly-one-argument check, the policy store mutation) are modelled from the
specification and marked as such in their doc comments.
-/

namespace ZulipUserTopics

/-- Integer codes of UserTopic.VisibilityPolicy: INHERIT. -/
def INHERIT : Nat := 0

/-- Integer code of UserTopic.VisibilityPolicy.MUTED. -/
def MUTED : Nat := 1

/-- Integer code of UserTopic.VisibilityPolicy.UNMUTED. -/
def UNMUTED : Nat := 2

/-- Integer code of UserTopic.VisibilityPolicy.FOLLOWED. -/
def FOLLOWED : Nat := 3

/-- UserTopic.VisibilityPolicy.values: the valid integer codes of the enum. -/
def VisibilityPolicyValues : List Nat := [0, 1, 2, 3]

/-- A stream (channel): unique integer id, unique name, and the recipient id
under which its messages are stored. -/
structure Stream where
  id : Nat
  name : String
  recipient_id : Nat
deriving DecidableEq, Repr

/-- A stored message: recipient id, channel-message flag, and subject
(the topic name). -/
structure Message where
  recipient_id : Nat
  is_channel_message : Bool
  subject : String
deriving DecidableEq, Repr

/-- A UserTopic override row: composite key (user_profile, stream, topic_name)
with a non-INHERIT visibility policy and a last_updated timestamp. -/
structure UserTopicRecord where
  user_profile_id : Nat
  stream_id : Nat
  topic_name : String
  visibility_policy : Nat
  last_updated : Nat
deriving DecidableEq, Repr

/-- The backing state: streams, messages, the UserTopic override store, the
current wall-clock time, and the opaque read/subscribe access capability check
used by ordinary stream lookup. -/
structure State where
  streams : List Stream
  messages : List Message
  userTopics : List UserTopicRecord
  now : Nat
  canAccess : Nat → Nat → Bool

/-- Failure taxonomy of the command layer (spec section 7).  AssertionFailed
embeds a failing Python assert statement. -/
inductive Err where
  | AmbiguousOrMissingStreamReference : Err
  | StreamNotFound : Err
  | AccessDenied : Err
  | NoOverrideToRemove : String → Err
  | InvalidPolicyValue : Err
  | AssertionFailed : Err
deriving DecidableEq, Repr

/-- Locate a stream by id in the store. -/
def findStreamById (s : State) (stream_id : Nat) : Option Stream :=
  s.streams.find? (fun st => st.id == stream_id)

/-- Locate a stream by name in the store. -/
def findStreamByName (s : State) (stream_name : String) : Option Stream :=
  s.streams.find? (fun st => st.name == stream_name)

/-- Modelled from the spec: access_stream_by_id (zerver.lib.streams, not under
src/).  Lookup mode: resolve the stream by id and check the caller has ordinary
read/subscribe access; fails StreamNotFound or AccessDenied. -/
def access_stream_by_id (s : State) (user : Nat) (stream_id : Nat) :
    Except Err Stream :=
  match findStreamById s stream_id with
  | none => .error .StreamNotFound
  | some st => if s.canAccess user st.id then .ok st else .error .AccessDenied

/-- Modelled from the spec: access_stream_by_name (zerver.lib.streams, not
under src/).  Lookup mode: resolve the stream by name and check the caller has
ordinary read/subscribe access; fails StreamNotFound or AccessDenied. -/
def access_stream_by_name (s : State) (user : Nat) (stream_name : String) :
    Except Err Stream :=
  match findStreamByName s stream_name with
  | none => .error .StreamNotFound
  | some st => if s.canAccess user st.id then .ok st else .error .AccessDenied

/-- Whether the user holds at least one override record on the stream (the
coarse stream-level existence check of removal lookup, spec sections 4.1, 9). -/
def hasAnyOverride (s : State) (user : Nat) (stream_id : Nat) : Bool :=
  s.userTopics.any (fun r => r.user_profile_id == user && r.stream_id == stream_id)

/-- Modelled from the spec: access_stream_to_remove_visibility_policy_by_id
(zerver.lib.streams, not under src/).  RemovalLookup mode: resolve the stream
by id, then require that an override currently exists for the user on that
stream; if none exists, fail NoOverrideToRemove with the caller-supplied
message. -/
def access_stream_to_remove_visibility_policy_by_id (s : State) (user : Nat)
    (stream_id : Nat) (error : String) : Except Err Stream :=
  match findStreamById s stream_id with
  | none => .error .StreamNotFound
  | some st =>
    if hasAnyOverride s user st.id then .ok st
    else .error (.NoOverrideToRemove error)

/-- Modelled from the spec: access_stream_to_remove_visibility_policy_by_name
(zerver.lib.streams, not under src/).  RemovalLookup mode by stream name. -/
def access_stream_to_remove_visibility_policy_by_name (s : State) (user : Nat)
    (stream_name : String) (error : String) : Except Err Stream :=
  match findStreamByName s stream_name with
  | none => .error .StreamNotFound
  | some st =>
    if hasAnyOverride s user st.id then .ok st
    else .error (.NoOverrideToRemove error)

/-- Whether a record belongs to the composite key (user, stream, topic). -/
def keyMatches (user stream_id : Nat) (topic : String)
    (r : UserTopicRecord) : Bool :=
  r.user_profile_id == user && r.stream_id == stream_id && r.topic_name == topic

/-- Modelled from the spec: do_set_user_topic_visibility_policy
(zerver.actions.user_topics, not under src/).  setPolicy of spec section 4.2:
INHERIT deletes any record for the key (a no-op, not an error, when none
exists); any other policy upserts the record, with last_updated defaulting to
the current time when not supplied. -/
def do_set_user_topic_visibility_policy (s : State) (user : Nat) (stream : Stream)
    (topic_name : String) (visibility_policy : Nat) (last_updated : Option Nat) :
    State :=
  if visibility_policy == INHERIT then
    { s with userTopics :=
        s.userTopics.filter (fun r => !(keyMatches user stream.id topic_name r)) }
  else
    { s with userTopics :=
        s.userTopics.filter (fun r => !(keyMatches user stream.id topic_name r))
          ++ [⟨user, stream.id, topic_name, visibility_policy, last_updated.getD s.now⟩] }

/-- mute_topic from src/zerver/views/user_topics.py: resolve the stream by
name when given, else by id (asserting an id is present), then set the MUTED
policy with last_updated equal to date_muted. -/
def mute_topic (s : State) (user : Nat) (stream_id : Option Nat)
    (stream_name : Option String) (topic_name : String) (date_muted : Nat) :
    State × Except Err Unit :=
  let resolved : Except Err Stream :=
    match stream_name with
    | some name => access_stream_by_name s user name
    | none =>
      match stream_id with
      | none => .error .AssertionFailed
      | some sid => access_stream_by_id s user sid
  match resolved with
  | .error e => (s, .error e)
  | .ok stream =>
    (do_set_user_topic_visibility_policy s user stream topic_name MUTED
      (some date_muted), .ok ())

/-- unmute_topic from src/zerver/views/user_topics.py: resolve the stream in
removal mode with error message "Topic is not muted", then set the INHERIT
policy (clearing the override). -/
def unmute_topic (s : State) (user : Nat) (stream_id : Option Nat)
    (stream_name : Option String) (topic_name : String) :
    State × Except Err Unit :=
  let error := "Topic is not muted"
  let resolved : Except Err Stream :=
    match stream_name with
    | some name => access_stream_to_remove_visibility_policy_by_name s user name error
    | none =>
      match stream_id with
      | none => .error .AssertionFailed
      | some sid => access_stream_to_remove_visibility_policy_by_id s user sid error
  match resolved with
  | .error e => (s, .error e)
  | .ok stream =>
    (do_set_user_topic_visibility_policy s user stream topic_name INHERIT none, .ok ())

/-- Modelled from the spec: check_for_exactly_one_stream_arg
(zerver.lib.streams, not under src/): exactly one of stream_id / stream must be
supplied; both or neither fails AmbiguousOrMissingStreamReference. -/
def check_for_exactly_one_stream_arg (stream_id : Option Nat)
    (stream : Option String) : Except Err Unit :=
  match stream_id, stream with
  | some _, some _ => .error .AmbiguousOrMissingStreamReference
  | none, none => .error .AmbiguousOrMissingStreamReference
  | _, _ => .ok ()

/-- The op parameter of update_muted_topic. -/
inductive MuteOp where
  | add : MuteOp
  | remove : MuteOp
deriving DecidableEq, Repr

/-- update_muted_topic from src/zerver/views/user_topics.py: check exactly one
stream reference, then dispatch to mute_topic (op add, date_muted = now) or
unmute_topic (op remove). -/
def update_muted_topic (s : State) (user : Nat) (stream_id : Option Nat)
    (stream : Option String) (topic : String) (op : MuteOp) :
    State × Except Err Unit :=
  match check_for_exactly_one_stream_arg stream_id stream with
  | .error e => (s, .error e)
  | .ok _ =>
    match op with
    | .add => mute_topic s user stream_id stream topic s.now
    | .remove => unmute_topic s user stream_id stream topic

/-- update_user_topic from src/zerver/views/user_topics.py: the endpoint
validator first checks visibility_policy against the enum values (failing
InvalidPolicyValue before the handler body runs); then, for INHERIT, the
stream is resolved in removal mode with error message "Invalid channel ID",
otherwise in ordinary lookup mode; finally the policy is stored with no
explicit last_updated. -/
def update_user_topic (s : State) (user : Nat) (stream_id : Nat)
    (topic : String) (visibility_policy : Nat) : State × Except Err Unit :=
  if VisibilityPolicyValues.contains visibility_policy then
    let resolved : Except Err Stream :=
      if visibility_policy == INHERIT then
        access_stream_to_remove_visibility_policy_by_id s user stream_id
          "Invalid channel ID"
      else
        access_stream_by_id s user stream_id
    match resolved with
    | .error e => (s, .error e)
    | .ok stream =>
      (do_set_user_topic_visibility_policy s user stream topic visibility_policy
        none, .ok ())
  else (s, .error .InvalidPolicyValue)

/-- The success payload of get_stream_topic_counts. -/
structure TopicCounts where
  stream_id : Nat
  total_topics : Nat
  followed_topics : Nat
deriving DecidableEq, Repr

/-- The distinct topic names among channel messages stored under the given
recipient id (the values_list distinct query of get_stream_topic_counts). -/
def distinctTopicNames (s : State) (recipient_id : Nat) : List String :=
  ((s.messages.filter (fun m => m.recipient_id == recipient_id && m.is_channel_message)).map
    (fun m => m.subject)).dedup

/-- get_stream_topic_counts from src/zerver/views/user_topics.py: look the
stream up by id only (no access check), failing on absence; compute the
distinct topic names of its channel messages; count them, and count the
UserTopic rows of this user on this stream with policy FOLLOWED whose
topic_name is among those names. -/
def get_stream_topic_counts (s : State) (user : Nat) (stream_id : Nat) :
    Except Err TopicCounts :=
  match findStreamById s stream_id with
  | none => .error .StreamNotFound
  | some stream =>
    let topic_names := distinctTopicNames s stream.recipient_id
    let total_topics := topic_names.length
    let followed_topics :=
      (s.userTopics.filter (fun r =>
        r.user_profile_id == user && r.stream_id == stream.id &&
        r.visibility_policy == FOLLOWED &&
        topic_names.contains r.topic_name)).length
    .ok ⟨stream_id, total_topics, followed_topics⟩

/-- The set of distinct topic names among channel messages stored under the
given recipient id (spec: the set of distinct topic names among all messages
ever posted to the stream). -/
def streamTopicFinset (s : State) (recipient_id : Nat) : Finset String :=
  ((s.messages.filter (fun m => m.recipient_id == recipient_id && m.is_channel_message)).map
    (fun m => m.subject)).toFinset

/-- Whether the user has an override record with policy FOLLOWED on the given
topic of the given stream. -/
def userFollowsTopic (s : State) (user stream_id : Nat) (t : String) : Bool :=
  s.userTopics.any (fun r =>
    r.user_profile_id == user && r.stream_id == stream_id &&
    r.visibility_policy == FOLLOWED && r.topic_name == t)

/-- Key uniqueness of the override store: no two rows share the composite
(user_profile, stream, topic_name) key, the unique constraint of the
UserTopic table. -/
def keyUnique (l : List UserTopicRecord) : Prop :=
  l.Pairwise (fun a b =>
    ¬(a.user_profile_id = b.user_profile_id ∧ a.stream_id = b.stream_id ∧
      a.topic_name = b.topic_name))

/-- A stream reference (id or name, as the optional-argument pair) locates the
given stream in the store, by name when a name is supplied, else by id. -/
def refResolvesTo (s : State) (stream_id : Option Nat)
    (stream_name : Option String) (st : Stream) : Prop :=
  (∃ n, stream_name = some n ∧ findStreamByName s n = some st) ∨
  (stream_name = none ∧ ∃ i, stream_id = some i ∧ findStreamById s i = some st)

/-- Concrete empty state, used to exercise failure paths. -/
def sEmpty : State :=
  { streams := [], messages := [], userTopics := [], now := 100,
    canAccess := fun _ _ => true }

/-- Concrete demo state: stream 1 (recipient 10) holds channel messages on
topics a, b, c, and user 7 follows topic b. -/
def sDemo : State :=
  { streams := [⟨1, "general", 10⟩],
    messages := [⟨10, true, "a"⟩, ⟨10, true, "b"⟩, ⟨10, true, "c"⟩],
    userTopics := [⟨7, 1, "b", 3, 5⟩],
    now := 100,
    canAccess := fun _ _ => true }

/-- Concrete state for the topic-name normalization question: the only channel
message has subject b (lowercase) while the FOLLOWED override of user 7 is
stored under B (uppercase). -/
def sCaseMismatch : State :=
  { streams := [⟨1, "general", 10⟩],
    messages := [⟨10, true, "b"⟩],
    userTopics := [⟨7, 1, "B", 3, 0⟩],
    now := 100,
    canAccess := fun _ _ => true }

/-- Counting helper: under key uniqueness, the number of FOLLOWED rows of the
user on the stream whose topic_name lies in a duplicate-free name list equals
the number of names in that list carrying a FOLLOWED override.  Both sides
match topic names by exact string equality. -/
theorem followed_count_eq (recs : List UserTopicRecord) (names : List String)
    (user sid : Nat) (hkey : keyUnique recs) (hnames : names.Nodup) :
    (recs.filter (fun r => r.user_profile_id == user && r.stream_id == sid &&
        r.visibility_policy == FOLLOWED && names.contains r.topic_name)).length
      = (names.filter (fun t => recs.any (fun r => r.user_profile_id == user &&
          r.stream_id == sid && r.visibility_policy == FOLLOWED &&
          r.topic_name == t))).length := by
  classical
  have hpw : (recs.filter (fun r => r.user_profile_id == user && r.stream_id == sid &&
      r.visibility_policy == FOLLOWED && names.contains r.topic_name)).Pairwise
      (fun a b => a.topic_name ≠ b.topic_name) := by
    refine (hkey.filter _).imp_of_mem ?_
    intro a b ha hb hR hab
    have hpa := List.of_mem_filter ha
    have hpb := List.of_mem_filter hb
    simp only [Bool.and_eq_true, beq_iff_eq] at hpa hpb
    exact hR ⟨hpa.1.1.1.trans hpb.1.1.1.symm, hpa.1.1.2.trans hpb.1.1.2.symm, hab⟩
  have hnd : ((recs.filter (fun r => r.user_profile_id == user && r.stream_id == sid &&
      r.visibility_policy == FOLLOWED && names.contains r.topic_name)).map
      (fun r => r.topic_name)).Nodup := List.pairwise_map.mpr hpw
  have hfnd : (names.filter (fun t => recs.any (fun r => r.user_profile_id == user &&
      r.stream_id == sid && r.visibility_policy == FOLLOWED &&
      r.topic_name == t))).Nodup := hnames.filter _
  have hset : ((recs.filter (fun r => r.user_profile_id == user && r.stream_id == sid &&
      r.visibility_policy == FOLLOWED && names.contains r.topic_name)).map
      (fun r => r.topic_name)).toFinset
      = (names.filter (fun t => recs.any (fun r => r.user_profile_id == user &&
          r.stream_id == sid && r.visibility_policy == FOLLOWED &&
          r.topic_name == t))).toFinset := by
    ext t
    simp only [List.mem_toFinset, List.mem_map, List.mem_filter, List.any_eq_true,
      Bool.and_eq_true, beq_iff_eq, List.elem_eq_mem, decide_eq_true_eq]
    constructor
    · rintro ⟨r, ⟨hr, ⟨⟨⟨hu, hs⟩, hp⟩, hn⟩⟩, rfl⟩
      exact ⟨hn, r, hr, ⟨⟨hu, hs⟩, hp⟩, rfl⟩
    · rintro ⟨ht, r, hr, ⟨⟨hu, hs⟩, hp⟩, hn⟩
      exact ⟨r, ⟨hr, ⟨⟨⟨hu, hs⟩, hp⟩, hn ▸ ht⟩⟩, hn⟩
  have h1 : (recs.filter (fun r => r.user_profile_id == user && r.stream_id == sid &&
      r.visibility_policy == FOLLOWED && names.contains r.topic_name)).length
      = ((recs.filter (fun r => r.user_profile_id == user && r.stream_id == sid &&
        r.visibility_policy == FOLLOWED && names.contains r.topic_name)).map
        (fun r => r.topic_name)).toFinset.card := by
    rw [List.toFinset_card_of_nodup hnd, List.length_map]
  have h2 : (names.filter (fun t => recs.any (fun r => r.user_profile_id == user &&
      r.stream_id == sid && r.visibility_policy == FOLLOWED &&
      r.topic_name == t))).toFinset.card
      = (names.filter (fun t => recs.any (fun r => r.user_profile_id == user &&
          r.stream_id == sid && r.visibility_policy == FOLLOWED &&
          r.topic_name == t))).length := List.toFinset_card_of_nodup hfnd
  rw [h1, hset, h2]

/-- Decidability of the key-uniqueness invariant. -/
instance (l : List UserTopicRecord) : Decidable (keyUnique l) := by
  unfold keyUnique
  infer_instance

/-- The distinct-topic-name list is duplicate-free. -/
theorem distinctTopicNames_nodup (s : State) (rid : Nat) :
    (distinctTopicNames s rid).Nodup := by
  unfold distinctTopicNames
  exact List.nodup_dedup _

/-- C1: for every user and every stream resolvable by stream_id, under the
key-uniqueness invariant of the UserTopic table, get_stream_topic_counts
returns a payload in which total_topics equals the cardinality of the set of
distinct topic names among all channel messages ever posted to the stream,
and followed_topics equals the number of topics in that set for which the
user has an override record with policy FOLLOWED. -/
theorem C1_topic_counts_correct (s : State) (user stream_id : Nat) (st : Stream)
    (hst : findStreamById s stream_id = some st)
    (hkey : keyUnique s.userTopics) :
    get_stream_topic_counts s user stream_id =
      .ok ⟨stream_id,
        (streamTopicFinset s st.recipient_id).card,
        ((streamTopicFinset s st.recipient_id).filter (fun t => userFollowsTopic s user st.id t = true)).card⟩ := by
  unfold get_stream_topic_counts
  rw [hst]
  simp only [Except.ok.injEq, TopicCounts.mk.injEq]
  refine ⟨trivial, ?_, ?_⟩
  · simp [distinctTopicNames, streamTopicFinset, List.card_toFinset]
  · rw [followed_count_eq s.userTopics (distinctTopicNames s st.recipient_id)
      user st.id hkey (distinctTopicNames_nodup s st.recipient_id)]
    have hfnd : ((distinctTopicNames s st.recipient_id).filter (fun t => userFollowsTopic s user st.id t)).Nodup :=
      (distinctTopicNames_nodup s st.recipient_id).filter _
    have hlen : ((distinctTopicNames s st.recipient_id).filter (fun t => userFollowsTopic s user st.id t)).length
        = ((distinctTopicNames s st.recipient_id).filter (fun t => userFollowsTopic s user st.id t)).toFinset.card :=
      (List.toFinset_card_of_nodup hfnd).symm
    have hstep : ((distinctTopicNames s st.recipient_id).filter (fun t => userFollowsTopic s user st.id t)).toFinset
        = (streamTopicFinset s st.recipient_id).filter (fun t => userFollowsTopic s user st.id t = true) := by
      ext t
      simp [distinctTopicNames, streamTopicFinset, List.mem_filter, userFollowsTopic]
    rw [show (fun t => s.userTopics.any (fun r => r.user_profile_id == user &&
        r.stream_id == st.id && r.visibility_policy == FOLLOWED &&
        r.topic_name == t)) = (fun t => userFollowsTopic s user st.id t) from rfl,
      hlen, hstep]

/-- C1 witness: on the demo state, stream 1 resolves, the key invariant holds,
and the payload matches the spec example with counts 3 and 1. -/
theorem C1_topic_counts_correct_witness :
    findStreamById sDemo 1 = some ⟨1, "general", 10⟩ ∧
    keyUnique sDemo.userTopics ∧
    get_stream_topic_counts sDemo 7 1 =
      .ok ⟨1, (streamTopicFinset sDemo 10).card,
        ((streamTopicFinset sDemo 10).filter (fun t => userFollowsTopic sDemo 7 1 t = true)).card⟩ :=
  ⟨by decide, by decide,
    C1_topic_counts_correct sDemo 7 1 ⟨1, "general", 10⟩ (by decide) (by decide)⟩

/-- C2: a call to update_user_topic with a visibility_policy integer outside
the enum values fails with InvalidPolicyValue in every state (so before any
stream resolution can matter) and leaves the state, in particular the
override store, unchanged. -/
theorem C2_invalid_policy_rejected (s : State) (user stream_id : Nat)
    (topic : String) (v : Nat) (hv : v ∉ VisibilityPolicyValues) :
    update_user_topic s user stream_id topic v = (s, .error .InvalidPolicyValue) := by
  unfold update_user_topic
  rw [if_neg]
  simp [hv]

/-- C2 witness: policy code 4 is outside the enum and is rejected on the empty
state with no mutation. -/
theorem C2_invalid_policy_rejected_witness :
    (4 : Nat) ∉ VisibilityPolicyValues ∧
    update_user_topic sEmpty 7 1 "a" 4 = (sEmpty, .error .InvalidPolicyValue) :=
  ⟨by decide, C2_invalid_policy_rejected sEmpty 7 1 "a" 4 (by decide)⟩

/-- C7: a call to update_muted_topic that supplies both stream_id and stream
name, or neither, fails with AmbiguousOrMissingStreamReference in every state
(so before any lookup) and with the state unchanged, for both op add and op
remove. -/
theorem C7_exactly_one_stream_ref (s : State) (user i : Nat) (n : String)
    (topic : String) (op : MuteOp) :
    update_muted_topic s user (some i) (some n) topic op
      = (s, .error .AmbiguousOrMissingStreamReference) ∧
    update_muted_topic s user none none topic op
      = (s, .error .AmbiguousOrMissingStreamReference) := by
  exact ⟨rfl, rfl⟩

/-- Errors of the ordinary by-id lookup are StreamNotFound or AccessDenied. -/
theorem access_stream_by_id_errors (s : State) (user i : Nat) (e : Err)
    (h : access_stream_by_id s user i = .error e) :
    e = .StreamNotFound ∨ e = .AccessDenied := by
  unfold access_stream_by_id at h
  split at h
  · injection h with h1
    exact Or.inl h1.symm
  · split at h
    · exact Except.noConfusion h
    · injection h with h1
      exact Or.inr h1.symm

/-- Errors of the ordinary by-name lookup are StreamNotFound or AccessDenied. -/
theorem access_stream_by_name_errors (s : State) (user : Nat) (n : String) (e : Err)
    (h : access_stream_by_name s user n = .error e) :
    e = .StreamNotFound ∨ e = .AccessDenied := by
  unfold access_stream_by_name at h
  split at h
  · injection h with h1
    exact Or.inl h1.symm
  · split at h
    · exact Except.noConfusion h
    · injection h with h1
      exact Or.inr h1.symm

/-- Errors of the by-id removal lookup are StreamNotFound or NoOverrideToRemove
with the caller-supplied message. -/
theorem removal_by_id_errors (s : State) (user i : Nat) (msg : String) (e : Err)
    (h : access_stream_to_remove_visibility_policy_by_id s user i msg = .error e) :
    e = .StreamNotFound ∨ e = .NoOverrideToRemove msg := by
  unfold access_stream_to_remove_visibility_policy_by_id at h
  split at h
  · injection h with h1
    exact Or.inl h1.symm
  · split at h
    · exact Except.noConfusion h
    · injection h with h1
      exact Or.inr h1.symm

/-- Errors of the by-name removal lookup are StreamNotFound or
NoOverrideToRemove with the caller-supplied message. -/
theorem removal_by_name_errors (s : State) (user : Nat) (n msg : String) (e : Err)
    (h : access_stream_to_remove_visibility_policy_by_name s user n msg = .error e) :
    e = .StreamNotFound ∨ e = .NoOverrideToRemove msg := by
  unfold access_stream_to_remove_visibility_policy_by_name at h
  split at h
  · injection h with h1
    exact Or.inl h1.symm
  · split at h
    · exact Except.noConfusion h
    · injection h with h1
      exact Or.inr h1.symm

/-- Every run of mute_topic either keeps the state or succeeds. -/
theorem mute_topic_state_cases (s : State) (user : Nat) (sid : Option Nat)
    (sname : Option String) (topic : String) (d : Nat) :
    (mute_topic s user sid sname topic d).1 = s ∨
    (mute_topic s user sid sname topic d).2 = .ok () := by
  cases sname with
  | some n =>
    cases hacc : access_stream_by_name s user n <;> simp [mute_topic, hacc]
  | none =>
    cases sid with
    | none => exact Or.inl rfl
    | some i =>
      cases hacc : access_stream_by_id s user i <;> simp [mute_topic, hacc]

/-- Every run of unmute_topic either keeps the state or succeeds. -/
theorem unmute_topic_state_cases (s : State) (user : Nat) (sid : Option Nat)
    (sname : Option String) (topic : String) :
    (unmute_topic s user sid sname topic).1 = s ∨
    (unmute_topic s user sid sname topic).2 = .ok () := by
  cases sname with
  | some n =>
    cases hacc : access_stream_to_remove_visibility_policy_by_name s user n
        "Topic is not muted" <;> simp [unmute_topic, hacc]
  | none =>
    cases sid with
    | none => exact Or.inl rfl
    | some i =>
      cases hacc : access_stream_to_remove_visibility_policy_by_id s user i
          "Topic is not muted" <;> simp [unmute_topic, hacc]

/-- Every run of update_user_topic either keeps the state or succeeds. -/
theorem update_user_topic_state_cases (s : State) (user sid : Nat)
    (topic : String) (v : Nat) :
    (update_user_topic s user sid topic v).1 = s ∨
    (update_user_topic s user sid topic v).2 = .ok () := by
  by_cases hv : v ∈ VisibilityPolicyValues
  · by_cases hi : v = INHERIT
    · cases hacc : access_stream_to_remove_visibility_policy_by_id s user sid
          "Invalid channel ID" <;>
        simp [update_user_topic, hv, hi, hacc, VisibilityPolicyValues, INHERIT]
    · cases hacc : access_stream_by_id s user sid <;>
        simp [update_user_topic, hv, hi, hacc]
  · simp [update_user_topic, hv]

/-- Every run of update_muted_topic either keeps the state or succeeds. -/
theorem update_muted_topic_state_cases (s : State) (user : Nat) (sid : Option Nat)
    (sname : Option String) (topic : String) (op : MuteOp) :
    (update_muted_topic s user sid sname topic op).1 = s ∨
    (update_muted_topic s user sid sname topic op).2 = .ok () := by
  cases sid <;> cases sname
  case none.none => exact Or.inl rfl
  case none.some n =>
    cases op
    case add => exact mute_topic_state_cases s user none (some n) topic s.now
    case remove => exact unmute_topic_state_cases s user none (some n) topic
  case some.none i =>
    cases op
    case add => exact mute_topic_state_cases s user (some i) none topic s.now
    case remove => exact unmute_topic_state_cases s user (some i) none topic
  case some.some => exact Or.inl rfl

/-- C3: whenever mute_topic, unmute_topic, update_user_topic or
update_muted_topic fails, the state (in particular the override store) is
exactly the input state: resolution and argument validation happen strictly
before the single store mutation, so no partial mutation occurs on failure. -/
theorem C3_no_mutation_on_failure (s : State) (user : Nat) (sidO : Option Nat)
    (snameO : Option String) (topic : String) (d sid v : Nat) (op : MuteOp) :
    (∀ e, (mute_topic s user sidO snameO topic d).2 = .error e →
      (mute_topic s user sidO snameO topic d).1 = s) ∧
    (∀ e, (unmute_topic s user sidO snameO topic).2 = .error e →
      (unmute_topic s user sidO snameO topic).1 = s) ∧
    (∀ e, (update_user_topic s user sid topic v).2 = .error e →
      (update_user_topic s user sid topic v).1 = s) ∧
    (∀ e, (update_muted_topic s user sidO snameO topic op).2 = .error e →
      (update_muted_topic s user sidO snameO topic op).1 = s) := by
  refine ⟨fun e h => ?_, fun e h => ?_, fun e h => ?_, fun e h => ?_⟩
  · rcases mute_topic_state_cases s user sidO snameO topic d with h1 | h1
    · exact h1
    · exact Except.noConfusion (h1.symm.trans h)
  · rcases unmute_topic_state_cases s user sidO snameO topic with h1 | h1
    · exact h1
    · exact Except.noConfusion (h1.symm.trans h)
  · rcases update_user_topic_state_cases s user sid topic v with h1 | h1
    · exact h1
    · exact Except.noConfusion (h1.symm.trans h)
  · rcases update_muted_topic_state_cases s user sidO snameO topic op with h1 | h1
    · exact h1
    · exact Except.noConfusion (h1.symm.trans h)

/-- C3 witness: concrete failing runs of all four commands leave the empty
state unchanged. -/
theorem C3_no_mutation_on_failure_witness :
    (mute_topic sEmpty 7 none none "t" 0).2 = .error .AssertionFailed ∧
    (mute_topic sEmpty 7 none none "t" 0).1 = sEmpty ∧
    (unmute_topic sEmpty 7 none none "t").1 = sEmpty ∧
    (update_user_topic sEmpty 7 1 "t" 9).1 = sEmpty ∧
    (update_muted_topic sEmpty 7 none none "t" .add).1 = sEmpty :=
  ⟨rfl,
    (C3_no_mutation_on_failure sEmpty 7 none none "t" 0 1 9 .add).1 .AssertionFailed rfl,
    (C3_no_mutation_on_failure sEmpty 7 none none "t" 0 1 9 .add).2.1 .AssertionFailed rfl,
    (C3_no_mutation_on_failure sEmpty 7 none none "t" 0 1 9 .add).2.2.1 .InvalidPolicyValue rfl,
    (C3_no_mutation_on_failure sEmpty 7 none none "t" 0 1 9 .add).2.2.2
      .AmbiguousOrMissingStreamReference rfl⟩

/-- C8: get_stream_topic_counts resolves the stream by id only, with no
access-policy gate beyond existence: if no stream with the id exists the call
fails with StreamNotFound and returns no counts; otherwise it succeeds for
every user. -/
theorem C8_topic_counts_by_id_only (s : State) (user stream_id : Nat) :
    (findStreamById s stream_id = none →
      get_stream_topic_counts s user stream_id = .error .StreamNotFound) ∧
    (∀ st, findStreamById s stream_id = some st →
      ∀ u2 : Nat, ∃ resp, get_stream_topic_counts s u2 stream_id = .ok resp) := by
  constructor
  · intro h
    unfold get_stream_topic_counts
    rw [h]
  · intro st h u2
    unfold get_stream_topic_counts
    rw [h]
    exact ⟨_, rfl⟩

/-- C8 witness: on the empty state stream 1 is absent and the call fails with
StreamNotFound; on the demo state the call succeeds even for user 99, who has
no override and no special access. -/
theorem C8_topic_counts_by_id_only_witness :
    get_stream_topic_counts sEmpty 7 1 = .error .StreamNotFound ∧
    ∃ resp, get_stream_topic_counts sDemo 99 1 = .ok resp :=
  ⟨(C8_topic_counts_by_id_only sEmpty 7 1).1 rfl,
    (C8_topic_counts_by_id_only sDemo 7 1).2 ⟨1, "general", 10⟩ rfl 99⟩

/-- C10: through update_muted_topic, the assert branches of mute_topic and
unmute_topic are unreachable: the exactly-one-reference check rejects the
none/none argument pair before dispatch, and with a reference supplied the
resolvers never produce the embedded assertion failure. -/
theorem C10_assert_unreachable (s : State) (user : Nat) (stream_id : Option Nat)
    (stream : Option String) (topic : String) (op : MuteOp) :
    (update_muted_topic s user stream_id stream topic op).2
      ≠ .error .AssertionFailed := by
  intro h
  cases stream_id <;> cases stream
  case none.none => simp [update_muted_topic, check_for_exactly_one_stream_arg] at h
  case some.some => simp [update_muted_topic, check_for_exactly_one_stream_arg] at h
  case none.some n =>
    cases op
    case add =>
      cases hacc : access_stream_by_name s user n
      case error e =>
        simp [update_muted_topic, check_for_exactly_one_stream_arg, mute_topic,
          hacc] at h
        rcases access_stream_by_name_errors s user n e hacc with rfl | rfl <;>
          exact Err.noConfusion h
      case ok st =>
        simp [update_muted_topic, check_for_exactly_one_stream_arg, mute_topic,
          hacc] at h
    case remove =>
      cases hacc : access_stream_to_remove_visibility_policy_by_name s user n
          "Topic is not muted"
      case error e =>
        simp [update_muted_topic, check_for_exactly_one_stream_arg, unmute_topic,
          hacc] at h
        rcases removal_by_name_errors s user n "Topic is not muted" e hacc with
          rfl | rfl <;> exact Err.noConfusion h
      case ok st =>
        simp [update_muted_topic, check_for_exactly_one_stream_arg, unmute_topic,
          hacc] at h
  case some.none i =>
    cases op
    case add =>
      cases hacc : access_stream_by_id s user i
      case error e =>
        simp [update_muted_topic, check_for_exactly_one_stream_arg, mute_topic,
          hacc] at h
        rcases access_stream_by_id_errors s user i e hacc with rfl | rfl <;>
          exact Err.noConfusion h
      case ok st =>
        simp [update_muted_topic, check_for_exactly_one_stream_arg, mute_topic,
          hacc] at h
    case remove =>
      cases hacc : access_stream_to_remove_visibility_policy_by_id s user i
          "Topic is not muted"
      case error e =>
        simp [update_muted_topic, check_for_exactly_one_stream_arg, unmute_topic,
          hacc] at h
        rcases removal_by_id_errors s user i "Topic is not muted" e hacc with
          rfl | rfl <;> exact Err.noConfusion h
      case ok st =>
        simp [update_muted_topic, check_for_exactly_one_stream_arg, unmute_topic,
          hacc] at h

/-- Concrete state with a stream and a message but no override record. -/
def sNoOv : State :=
  { streams := [⟨1, "general", 10⟩],
    messages := [⟨10, true, "b"⟩],
    userTopics := [],
    now := 100,
    canAccess := fun _ _ => true }

/-- C4: update_user_topic with a valid policy resolves the stream in removal
mode with error message Invalid channel ID when the requested policy is
INHERIT, clearing the (user, stream, topic) override on success; for any
other valid policy it resolves in ordinary lookup mode and on success upserts
the override to the requested policy with last_updated defaulting to the
current time. -/
theorem C4_update_user_topic_modes (s : State) (user stream_id : Nat)
    (topic : String) (v : Nat) (hv : v ∈ VisibilityPolicyValues) :
    (v = INHERIT →
      (∀ e, access_stream_to_remove_visibility_policy_by_id s user stream_id
          "Invalid channel ID" = .error e →
        update_user_topic s user stream_id topic v = (s, .error e)) ∧
      (∀ st, access_stream_to_remove_visibility_policy_by_id s user stream_id
          "Invalid channel ID" = .ok st →
        update_user_topic s user stream_id topic v =
          ({ s with userTopics := s.userTopics.filter (fun r => !(keyMatches user st.id topic r)) }, .ok ()))) ∧
    (v ≠ INHERIT →
      (∀ e, access_stream_by_id s user stream_id = .error e →
        update_user_topic s user stream_id topic v = (s, .error e)) ∧
      (∀ st, access_stream_by_id s user stream_id = .ok st →
        update_user_topic s user stream_id topic v =
          ({ s with userTopics := s.userTopics.filter (fun r => !(keyMatches user st.id topic r))
              ++ [⟨user, st.id, topic, v, s.now⟩] }, .ok ()))) := by
  constructor
  · intro hi
    constructor
    · intro e he
      simp [update_user_topic, hv, hi, he, VisibilityPolicyValues, INHERIT]
    · intro st hok
      simp [update_user_topic, hv, hi, hok, VisibilityPolicyValues, INHERIT,
        do_set_user_topic_visibility_policy]
  · intro hi
    constructor
    · intro e he
      simp [update_user_topic, hv, hi, he]
    · intro st hok
      simp [update_user_topic, hv, hi, hok, do_set_user_topic_visibility_policy]

/-- C4 witness: on the demo state, policy INHERIT (0) clears the override on
topic b, and policy FOLLOWED (3) upserts topic c with last_updated now. -/
theorem C4_update_user_topic_modes_witness :
    update_user_topic sDemo 7 1 "b" 0 =
      ({ sDemo with userTopics := sDemo.userTopics.filter (fun r => !(keyMatches 7 1 "b" r)) }, .ok ()) ∧
    update_user_topic sDemo 7 1 "c" 3 =
      ({ sDemo with userTopics := sDemo.userTopics.filter (fun r => !(keyMatches 7 1 "c" r))
          ++ [⟨7, 1, "c", 3, sDemo.now⟩] }, .ok ()) :=
  ⟨((C4_update_user_topic_modes sDemo 7 1 "b" 0 (by decide)).1 rfl).2
      ⟨1, "general", 10⟩ rfl,
    ((C4_update_user_topic_modes sDemo 7 1 "c" 3 (by decide)).2 (by decide)).2
      ⟨1, "general", 10⟩ rfl⟩

/-- C5: unmute_topic resolves the stream in removal mode with error message
Topic is not muted (by name when a name is supplied, else by id); when the
resolved stream carries no override of the user the call fails with
NoOverrideToRemove and that message; on successful resolution the
(user, stream, topic) override is cleared, that is, set to INHERIT. -/
theorem C5_unmute_topic_removal (s : State) (user : Nat) (stream_id : Option Nat)
    (stream_name : Option String) (topic_name : String) :
    (∀ n, stream_name = some n →
      (∀ e, access_stream_to_remove_visibility_policy_by_name s user n
          "Topic is not muted" = .error e →
        unmute_topic s user stream_id stream_name topic_name = (s, .error e)) ∧
      (∀ st, access_stream_to_remove_visibility_policy_by_name s user n
          "Topic is not muted" = .ok st →
        unmute_topic s user stream_id stream_name topic_name =
          ({ s with userTopics := s.userTopics.filter (fun r => !(keyMatches user st.id topic_name r)) }, .ok ()))) ∧
    (∀ i, stream_name = none → stream_id = some i →
      (∀ e, access_stream_to_remove_visibility_policy_by_id s user i
          "Topic is not muted" = .error e →
        unmute_topic s user stream_id stream_name topic_name = (s, .error e)) ∧
      (∀ st, access_stream_to_remove_visibility_policy_by_id s user i
          "Topic is not muted" = .ok st →
        unmute_topic s user stream_id stream_name topic_name =
          ({ s with userTopics := s.userTopics.filter (fun r => !(keyMatches user st.id topic_name r)) }, .ok ()))) ∧
    (∀ st, refResolvesTo s stream_id stream_name st →
      hasAnyOverride s user st.id = false →
      unmute_topic s user stream_id stream_name topic_name =
        (s, .error (.NoOverrideToRemove "Topic is not muted"))) := by
  refine ⟨?_, ?_, ?_⟩
  · rintro n rfl
    constructor
    · intro e he
      simp [unmute_topic, he]
    · intro st hok
      simp [unmute_topic, hok, do_set_user_topic_visibility_policy, INHERIT]
  · rintro i rfl rfl
    constructor
    · intro e he
      simp [unmute_topic, he]
    · intro st hok
      simp [unmute_topic, hok, do_set_user_topic_visibility_policy, INHERIT]
  · rintro st (⟨n, rfl, hfind⟩ | ⟨rfl, i, rfl, hfind⟩) hov
    · simp [unmute_topic, access_stream_to_remove_visibility_policy_by_name,
        hfind, hov]
    · simp [unmute_topic, access_stream_to_remove_visibility_policy_by_id,
        hfind, hov]

/-- C5 witness: by name on the empty state the resolver error propagates; by
id on the demo state the override on topic b is cleared; and on a state with
the stream present but no override the call fails NoOverrideToRemove with
message Topic is not muted. -/
theorem C5_unmute_topic_removal_witness :
    unmute_topic sEmpty 7 none (some "general") "t" =
      (sEmpty, .error .StreamNotFound) ∧
    unmute_topic sDemo 7 (some 1) none "b" =
      ({ sDemo with userTopics := sDemo.userTopics.filter (fun r => !(keyMatches 7 1 "b" r)) }, .ok ()) ∧
    unmute_topic sNoOv 7 (some 1) none "t" =
      (sNoOv, .error (.NoOverrideToRemove "Topic is not muted")) :=
  ⟨((C5_unmute_topic_removal sEmpty 7 none (some "general") "t").1 "general"
      rfl).1 .StreamNotFound rfl,
    ((C5_unmute_topic_removal sDemo 7 (some 1) none "b").2.1 1 rfl rfl).2
      ⟨1, "general", 10⟩ rfl,
    (C5_unmute_topic_removal sNoOv 7 (some 1) none "t").2.2
      ⟨1, "general", 10⟩ (Or.inr ⟨rfl, 1, rfl, rfl⟩) rfl⟩

/-- C6: mute_topic resolves the stream in ordinary lookup mode, by name when a
name is supplied, else by id; on success the (user, stream, topic) override is
set to MUTED with last_updated equal to the supplied date_muted, and every
failure is exactly the resolver failure. -/
theorem C6_mute_topic_lookup (s : State) (user : Nat) (stream_id : Option Nat)
    (stream_name : Option String) (topic_name : String) (date_muted : Nat) :
    (∀ n, stream_name = some n →
      (∀ e, access_stream_by_name s user n = .error e →
        mute_topic s user stream_id stream_name topic_name date_muted =
          (s, .error e)) ∧
      (∀ st, access_stream_by_name s user n = .ok st →
        mute_topic s user stream_id stream_name topic_name date_muted =
          ({ s with userTopics := s.userTopics.filter (fun r => !(keyMatches user st.id topic_name r))
              ++ [⟨user, st.id, topic_name, MUTED, date_muted⟩] }, .ok ()))) ∧
    (∀ i, stream_name = none → stream_id = some i →
      (∀ e, access_stream_by_id s user i = .error e →
        mute_topic s user stream_id stream_name topic_name date_muted =
          (s, .error e)) ∧
      (∀ st, access_stream_by_id s user i = .ok st →
        mute_topic s user stream_id stream_name topic_name date_muted =
          ({ s with userTopics := s.userTopics.filter (fun r => !(keyMatches user st.id topic_name r))
              ++ [⟨user, st.id, topic_name, MUTED, date_muted⟩] }, .ok ()))) := by
  constructor
  · rintro n rfl
    constructor
    · intro e he
      simp [mute_topic, he]
    · intro st hok
      simp [mute_topic, hok, do_set_user_topic_visibility_policy, MUTED, INHERIT]
  · rintro i rfl rfl
    constructor
    · intro e he
      simp [mute_topic, he]
    · intro st hok
      simp [mute_topic, hok, do_set_user_topic_visibility_policy, MUTED, INHERIT]

/-- C6 witness: by name on the empty state the resolver error propagates; by
id on the demo state topic d is muted with the supplied timestamp 42. -/
theorem C6_mute_topic_lookup_witness :
    mute_topic sEmpty 7 none (some "general") "t" 42 =
      (sEmpty, .error .StreamNotFound) ∧
    mute_topic sDemo 7 (some 1) none "d" 42 =
      ({ sDemo with userTopics := sDemo.userTopics.filter (fun r => !(keyMatches 7 1 "d" r))
          ++ [⟨7, 1, "d", MUTED, 42⟩] }, .ok ()) :=
  ⟨((C6_mute_topic_lookup sEmpty 7 none (some "general") "t" 42).1 "general"
      rfl).1 .StreamNotFound rfl,
    ((C6_mute_topic_lookup sDemo 7 (some 1) none "d" 42).2 1 rfl rfl).2
      ⟨1, "general", 10⟩ rfl⟩

/-- C9 counterexample: in sCaseMismatch the aggregator lists exactly the raw
subject b, and the user holds a FOLLOWED override on the same topic up to
case (stored topic_name B), yet followed_topics is 0: the override-counting
match of get_stream_topic_counts is case-sensitive, refuting the claimed
case-insensitive topic-name matching. -/
theorem C9_counterexample :
    distinctTopicNames sCaseMismatch 10 = ["b"] ∧
    sCaseMismatch.userTopics = [⟨7, 1, "B", FOLLOWED, 0⟩] ∧
    "B".data.map Char.toLower = "b".data ∧
    get_stream_topic_counts sCaseMismatch 7 1 = .ok ⟨1, 1, 0⟩ := by
  refine ⟨rfl, rfl, by decide, rfl⟩

/-- C9 amended: the aggregator and the override filter both use raw topic
names with no normalization, so the two sides agree trivially, but matching is
exact string equality rather than case- or whitespace-insensitive: under key
uniqueness, followed_topics counts exactly the distinct raw subjects that
literally equal the topic_name of a FOLLOWED override of the user. -/
theorem C9_exact_name_matching (s : State) (user stream_id : Nat) (st : Stream)
    (hst : findStreamById s stream_id = some st)
    (hkey : keyUnique s.userTopics) :
    ∃ resp, get_stream_topic_counts s user stream_id = .ok resp ∧
      resp.followed_topics =
        ((distinctTopicNames s st.recipient_id).filter (fun t => s.userTopics.any (fun r =>
            r.user_profile_id == user && r.stream_id == st.id &&
            r.visibility_policy == FOLLOWED && r.topic_name == t))).length := by
  unfold get_stream_topic_counts
  rw [hst]
  exact ⟨_, rfl, followed_count_eq s.userTopics
    (distinctTopicNames s st.recipient_id) user st.id hkey
    (distinctTopicNames_nodup s st.recipient_id)⟩

/-- C9 amended witness: the exact-matching characterization applied to the
case-mismatch state. -/
theorem C9_exact_name_matching_witness :
    ∃ resp, get_stream_topic_counts sCaseMismatch 7 1 = .ok resp ∧
      resp.followed_topics =
        ((distinctTopicNames sCaseMismatch 10).filter (fun t => sCaseMismatch.userTopics.any (fun r =>
            r.user_profile_id == 7 && r.stream_id == 1 &&
            r.visibility_policy == FOLLOWED && r.topic_name == t))).length :=
  C9_exact_name_matching sCaseMismatch 7 1 ⟨1, "general", 10⟩ (by decide)
    (by decide)

end ZulipUserTopics
